import Mathlib

/-!
Verification of the runway-vision-builder generation pipeline.

The repository ships several revisions of the same application concatenated
into its source files.  The embeddings below are labelled by the revision
they are translated from:

* namespace `GeminiSvc`  — `composeFinalImage` from `src/services/geminiService.ts`
  (sequential per-model loop, per-angle soft omission, model-level throw
  wrapped by a function-level try/catch that rethrows).
* namespace `GeminiP1`   — `checkVideoStatus` from `src/unnamed/part_001`
  (terminal failure carries a `directDownloadUrl` salvage link).
* namespace `AppV1`      — the first `App` component in `src/App.tsx`
  (single-selection state, `isGenerationDisabled` at line 68, `handleGenerate`
  at lines 180-237, `pollVideo` at lines 323-355, `handleDeleteItem` at
  lines 133-144, auto-created `collections` entries).
* namespace `AppV3`      — the second/third `App` components in `src/App.tsx`
  (array selections, `isGenerateDisabled` at lines 689-691 and 1243-1245,
  `handleGenerate` at lines 822-883 and 1376-1436, the poll `useEffect` at
  lines 887-917 and 1440-1470, `createDeleteHandler` at lines 753-756 and
  1307-1310, `saveToLookbook` / `loadFromLookbook`).

Backend calls are modelled as oracle parameters returning `Except`: an
`Except.error` is a thrown/rejected call, `Except.ok` a fulfilled one.
Where JavaScript settles concurrent promises in an unspecified order, the
embedding determinizes to list order; every theorem below depends only on
facts that are order-independent in the source.
-/

/-- A catalog item (`Product`, `Model`, `Scene`, `Accessory` in `types.ts`). -/
structure Item where
  id : Nat
  name : String
  imageUrl : String
deriving DecidableEq, Repr

/-- A pose (`Pose` in `types.ts`, second variant: carries an optional prompt,
modelled as a plain string since only its presence matters here). -/
structure PoseItem where
  id : Nat
  name : String
  prompt : String
deriving DecidableEq, Repr

/-- The `GenerationState` union of `types.ts`. -/
inductive GenerationState where
  | idle
  | loadingImage
  | loadingCutout
  | loadingVideoDescription
  | loadingVideo
  | success
  | error
deriving DecidableEq, Repr

/-- `generationState !== 'idle' && generationState !== 'success' &&
generationState !== 'error'` — the non-terminal (busy) states. -/
def GenerationState.isBusy : GenerationState → Bool
  | .idle => false
  | .success => false
  | .error => false
  | _ => true

/-- The shape of a long-running video operation as the app reads it:
`done`, `error?.message`, and `response?.generatedVideos?.[0]?.video?.uri`. -/
structure VideoOp where
  done : Bool
  errMsg : Option String
  uri : Option String
deriving DecidableEq, Repr

/-- One backend call issued by the orchestration code (trace alphabet). -/
inductive Call where
  | shoot
  | cutout
  | describe
  | startVideo
  | poll
deriving DecidableEq, Repr

namespace GeminiSvc

/-- One `{angle, image}` pair of a job's `images`. -/
structure AngleImage where
  angle : String
  image : String
deriving DecidableEq, Repr

/-- One model's entry of `composeFinalImage`'s result array. -/
structure JobResult where
  model : Item
  images : List AngleImage
deriving DecidableEq, Repr

/-- `const angles = ['Front View', 'Three-Quarter View', 'Side View']`
(`geminiService.ts` line 100). -/
def angles : List String := ["Front View", "Three-Quarter View", "Side View"]

/-- The inner per-angle loop of `composeFinalImage` (`geminiService.ts`
lines 105-188) for one model: each angle issues one `generateContent` call
(oracle `respond`); a thrown call (`Except.error`) escapes the loop; a
fulfilled call with no image part (`Except.ok none`) is only logged with
`console.warn` and the angle is omitted; an image part is appended. -/
def collectAngles (respond : Nat → String → Except String (Option String)) (mid : Nat) :
    List String → Except String (List AngleImage)
  | [] => Except.ok []
  | a :: rest =>
    match respond mid a with
    | Except.error e => Except.error e
    | Except.ok r =>
      match collectAngles respond mid rest with
      | Except.error e => Except.error e
      | Except.ok tail =>
        match r with
        | some img => Except.ok ({ angle := a, image := img } :: tail)
        | none => Except.ok tail

/-- The sequential `for (const model of models)` loop of `composeFinalImage`
(`geminiService.ts` lines 102-195): a model with at least one angle image is
pushed onto `results`; a model whose `modelImages` is empty throws. -/
def composeLoop (respond : Nat → String → Except String (Option String)) :
    List Item → Except String (List JobResult)
  | [] => Except.ok []
  | m :: rest =>
    match collectAngles respond m.id angles with
    | Except.error e => Except.error e
    | Except.ok imgs =>
      if imgs.isEmpty then
        Except.error ("Image composition failed for model " ++ m.name ++
          ". The model did not return any images.")
      else
        match composeLoop respond rest with
        | Except.error e => Except.error e
        | Except.ok tail => Except.ok ({ model := m, images := imgs } :: tail)

/-- `composeFinalImage` of `geminiService.ts` (lines 89-202): the whole loop
sits in one `try`; any throw — including the per-model "no images" throw —
is caught at line 198 and rethrown wrapped in "Failed to compose image.",
so every partial result accumulated so far is discarded. -/
def composeFinalImage (models : List Item)
    (respond : Nat → String → Except String (Option String)) :
    Except String (List JobResult) :=
  match composeLoop respond models with
  | Except.ok rs => Except.ok rs
  | Except.error e => Except.error ("Failed to compose image. Details: " ++ e)

/-- The angles of `l` whose call fulfilled with an image, in order. -/
def successfulAngles (respond : Nat → String → Except String (Option String))
    (mid : Nat) (l : List String) : List AngleImage :=
  l.filterMap (fun a =>
    match respond mid a with
    | Except.ok (some img) => some { angle := a, image := img }
    | _ => none)

end GeminiSvc

namespace GeminiP1

/-- Non-error result of `checkVideoStatus` in `src/unnamed/part_001`:
`null` (still processing) or a playable blob URL. -/
inductive PollOutcome where
  | pending
  | ready (blobUrl : String)
deriving DecidableEq, Repr

/-- The error thrown by `checkVideoStatus` in `src/unnamed/part_001`:
a message plus the `directDownloadUrl` property attached at line 349
(`undefined` when the response holds no video URI). -/
structure PollError where
  message : String
  directDownloadUrl : Option String
deriving DecidableEq, Repr

/-- The error thrown when a finished operation carries no video URI
(`src/unnamed/part_001` lines 361 and 367). -/
def noUriError : PollError :=
  { message := "Video generation finished, but no video URI was found in the response.",
    directDownloadUrl := none }

/-- `checkVideoStatus` of `src/unnamed/part_001` (lines 340-373).
`op` is the refreshed operation returned by `getVideosOperation`;
`fetchVideo` stands for the `fetch`+blob step of lines 358-365 (its error
is the message thrown at lines 359-362).  On `done` with an error object,
the thrown error's message is `String(message) || 'Video generation
failed.'` and its `directDownloadUrl` is exactly the response URI option. -/
def checkVideoStatus (key : String) (fetchVideo : String → Except String String)
    (op : VideoOp) : Except PollError PollOutcome :=
  if op.done then
    match op.errMsg with
    | some m =>
      Except.error { message := if m = "" then "Video generation failed." else m,
                     directDownloadUrl := op.uri }
    | none =>
      match op.uri with
      | some link =>
        if link = "" then
          Except.error noUriError
        else
          match fetchVideo (link ++ "&key=" ++ key) with
          | Except.ok blobUrl => Except.ok (PollOutcome.ready blobUrl)
          | Except.error e => Except.error { message := e, directDownloadUrl := none }
      | none =>
        Except.error noUriError
  else
    Except.ok PollOutcome.pending

end GeminiP1

namespace AppV1

/-- `GeneratedResult` of `src/types.ts` (first variant): all fields optional. -/
structure GeneratedResult where
  image : Option String
  video : Option String
  error : Option String
  videoOperation : Option VideoOp
  cutoutImage : Option String
deriving DecidableEq, Repr

/-- The all-absent result record. -/
def emptyResult : GeneratedResult :=
  { image := none, video := none, error := none, videoOperation := none,
    cutoutImage := none }

/-- A `Collection` entry of the first `types.ts` variant (selections carry no
pipeline state and are elided; `result` is the mutable part at issue). -/
structure Collection where
  id : Nat
  timestamp : Nat
  result : GeneratedResult
deriving DecidableEq, Repr

/-- `isGenerationDisabled` (`App.tsx` line 68):
`!selectedProduct || !selectedModel || (!selectedScene && !selectedColor) ||
!selectedPose` — note it never consults `generationState`. -/
def isGenerationDisabled (product model scene : Option Item)
    (color : Option String) (pose : Option PoseItem) : Bool :=
  product.isNone || model.isNone || (scene.isNone && color.isNone) || pose.isNone

/-- Output of one invocation of the first variant's `handleGenerate`. -/
structure GenOutcome where
  generationState : GenerationState
  generatedResult : Option GeneratedResult
  collections : List Collection
  calls : List Call
deriving DecidableEq, Repr

/-- `handleGenerate` of the first `App` variant (`App.tsx` lines 180-237).
Guard: only `isGenerationDisabled` (line 181) — the `generationState`
check exists solely on the button (line 572), not in the action.
On a successful shot a `Collection` entry is appended immediately
(lines 205-207); then a video promise (describe → start video) and a cutout
promise run under `Promise.all` (lines 210-230); ANY rejection reaches the
catch (lines 232-236), which REPLACES the result with `{ error }` and sets
the `error` state.  When both continuations fulfil, the last state set is
`loading-video`.  When exactly one rejects, its message is the one caught;
when both reject, the embedding determinizes to the video-side message. -/
def handleGenerate (product model scene : Option Item) (color : Option String)
    (pose : Option PoseItem)
    (prevState : GenerationState) (prevResult : Option GeneratedResult)
    (prevCollections : List Collection)
    (entryId entryTs : Nat)
    (shoot : Except String String)
    (describe : String → Except String String)
    (startVideo : String → String → Except String VideoOp)
    (cutout : String → Except String String) : GenOutcome :=
  if isGenerationDisabled product model scene color pose then
    { generationState := prevState, generatedResult := prevResult,
      collections := prevCollections, calls := [] }
  else
    match shoot with
    | Except.error e =>
      { generationState := GenerationState.error,
        generatedResult := some { emptyResult with error := some e },
        collections := prevCollections,
        calls := [Call.shoot] }
    | Except.ok img =>
      let newResult : GeneratedResult := { emptyResult with image := some img }
      let videoRes : Except String VideoOp :=
        match describe img with
        | Except.error e => Except.error e
        | Except.ok d => startVideo img d
      let cutoutRes := cutout img
      let traced : List Call :=
        [Call.shoot, Call.describe] ++
          (match describe img with
           | Except.ok _ => [Call.startVideo]
           | Except.error _ => []) ++ [Call.cutout]
      let patched : GeneratedResult :=
        { newResult with
          videoOperation := match videoRes with
            | Except.ok op => some op
            | Except.error _ => none,
          cutoutImage := match cutoutRes with
            | Except.ok c => some c
            | Except.error _ => none }
      let entry : Collection := { id := entryId, timestamp := entryTs, result := patched }
      match videoRes, cutoutRes with
      | Except.ok _, Except.ok _ =>
        { generationState := GenerationState.loadingVideo,
          generatedResult := some patched,
          collections := entry :: prevCollections,
          calls := traced }
      | Except.error e, _ =>
        { generationState := GenerationState.error,
          generatedResult := some { emptyResult with error := some e },
          collections := entry :: prevCollections,
          calls := traced }
      | Except.ok _, Except.error e =>
        { generationState := GenerationState.error,
          generatedResult := some { emptyResult with error := some e },
          collections := entry :: prevCollections,
          calls := traced }

/-- Output of one `pollVideo` tick of the first `App` variant. -/
structure PollOut where
  generationState : GenerationState
  generatedResult : Option GeneratedResult
  collections : List Collection
  cleared : Bool
  calls : List Call
deriving DecidableEq, Repr

/-- `setCollections(prev => prev.map(c => c.id === collections[0].id ?
{...c, result: f(c.result)} : c))` (`App.tsx` lines 340 and 347). -/
def patchHeadCollection (cols : List Collection)
    (f : GeneratedResult → GeneratedResult) : List Collection :=
  match cols with
  | [] => []
  | c0 :: _ =>
    cols.map (fun c => if c.id = c0.id then { c with result := f c.result } else c)

/-- `pollVideo` of the first `App` variant (`App.tsx` lines 323-355).
Guard (lines 325-328): no operation handle, or a handle already `done`,
clears the interval and returns without polling or mutating anything.
Otherwise one `pollVideoOperation` call is made; a thrown poll
(`Except.error`) is caught at lines 349-354: interval cleared, `error`
merged into the result, state set to `error`. -/
def pollVideo (key : String) (st : GenerationState)
    (res : Option GeneratedResult) (cols : List Collection)
    (pollOp : Except String VideoOp) : PollOut :=
  match res with
  | none =>
    { generationState := st, generatedResult := res, collections := cols,
      cleared := true, calls := [] }
  | some r =>
    match r.videoOperation with
    | none =>
      { generationState := st, generatedResult := res, collections := cols,
        cleared := true, calls := [] }
    | some op =>
      if op.done then
        { generationState := st, generatedResult := res, collections := cols,
          cleared := true, calls := [] }
      else
        match pollOp with
        | Except.error e =>
          { generationState := GenerationState.error,
            generatedResult := some { r with error := some e },
            collections := cols, cleared := true, calls := [Call.poll] }
        | Except.ok op2 =>
          if op2.done then
            match op2.uri with
            | some u =>
              let videoUrl := u ++ "&key=" ++ key
              { generationState := GenerationState.success,
                generatedResult :=
                  some { r with video := some videoUrl, videoOperation := some op2 },
                collections := patchHeadCollection cols
                  (fun g => { g with video := some videoUrl, videoOperation := some op2 }),
                cleared := true, calls := [Call.poll] }
            | none =>
              { generationState := GenerationState.error,
                generatedResult := some { r with
                  error := some "Video processing finished, but no video URL was found." },
                collections := cols, cleared := true, calls := [Call.poll] }
          else
            { generationState := st,
              generatedResult := some { r with videoOperation := some op2 },
              collections := patchHeadCollection cols
                (fun g => { g with videoOperation := some op2 }),
              cleared := false, calls := [Call.poll] }

/-- `!currentResult?.videoOperation || currentResult.videoOperation.done`
(`App.tsx` lines 325): the tracked handle is absent or already resolved. -/
def videoHandleResolved (res : Option GeneratedResult) : Bool :=
  match res with
  | none => true
  | some r =>
    match r.videoOperation with
    | none => true
    | some op => op.done

/-- `handleDeleteItem` of the first `App` variant (`App.tsx` lines 133-144):
filters the catalog and nulls the single-selection when it carries the
deleted id. -/
def handleDeleteItem (catalog : List Item) (currentSelection : Option Item)
    (targetId : Nat) : List Item × Option Item :=
  (catalog.filter (fun item => item.id ≠ targetId),
   match currentSelection with
   | some sel => if sel.id = targetId then none else some sel
   | none => none)

end AppV1

namespace AppV3

/-- The selection state of the second/third `App` variants
(`selectedProducts`, `selectedModels`, `selectedScene`, `selectedColor`,
`selectedAccessories`, `selectedPose`). -/
structure Selections where
  products : List Item
  models : List Item
  scene : Option Item
  color : Option String
  accessories : List Item
  pose : Option PoseItem
deriving DecidableEq, Repr

/-- `isGenerateDisabled` (`App.tsx` lines 689-691 and 1243-1245):
missing required selections, or a busy (non-terminal) generation state. -/
def isGenerateDisabled (sel : Selections) (g : GenerationState) : Bool :=
  sel.products.isEmpty || sel.models.isEmpty || sel.pose.isNone ||
    (sel.scene.isNone && sel.color.isNone) || g.isBusy

/-- One element of the `GeneratedResult[]` array of the second/third
variants: `{ image, model }` at creation, later patched with
`cutoutImage` / `video` / `videoOperation`. -/
structure GenResult where
  model : Item
  image : String
  cutoutImage : Option String
  video : Option String
  videoOperation : Option VideoOp
deriving DecidableEq, Repr

/-- The fresh result for one fulfilled `generateProductShot` call
(`App.tsx` line 845/1399). -/
def freshResult (m : Item) (img : String) : GenResult :=
  { model := m, image := img, cutoutImage := none, video := none,
    videoOperation := none }

/-- `await Promise.all(generationPromises)` (`App.tsx` line 851/1405):
one `generateProductShot` per selected model; resolves to one result per
model, or rejects with the first rejection (determinized to list order). -/
def allShoot (shoot : Item → Except String String) :
    List Item → Except String (List GenResult)
  | [] => Except.ok []
  | m :: rest =>
    match shoot m with
    | Except.error e => Except.error e
    | Except.ok img =>
      match allShoot shoot rest with
      | Except.error e => Except.error e
      | Except.ok tail => Except.ok (freshResult m img :: tail)

/-- The results whose shot fulfilled (progressive `setGeneratedResult`
appends that ran before a rejection settled `Promise.all`). -/
def fulfilledShots (shoot : Item → Except String String) (models : List Item) :
    List GenResult :=
  models.filterMap (fun m =>
    match shoot m with
    | Except.ok img => some (freshResult m img)
    | Except.error _ => none)

/-- Output of one invocation of the second/third variants' `handleGenerate`. -/
structure GenOut where
  generationState : GenerationState
  generationError : Option String
  generatedResult : Option (List GenResult)
  videoDescription : Option String
  calls : List Call
deriving DecidableEq, Repr

/-- `handleGenerate` of the second/third `App` variants (`App.tsx` lines
822-883 and 1376-1436).  Guard (line 823/1377): `isGenerateDisabled ||
selectedProducts.length === 0 || selectedModels.length === 0 ||
!selectedPose` — refused invocations return with nothing changed and no
backend call.  Otherwise all per-model shots run under `Promise.all`
(every shot call is issued).  On success:
multi-model (or empty) runs go straight to `success` with no further calls
(lines 872-874 / 1426-1428); a single-model run fires a detached cutout
whose failure is only logged (lines 858-861 / 1413-1415), then awaits the
video description and video submission, ending in state `loading-video`.
Any awaited rejection reaches the catch (error state + message). -/
def handleGenerate (sel : Selections) (g : GenerationState)
    (prevError : Option String) (prevResult : Option (List GenResult))
    (prevVideoDescription : Option String)
    (shoot : Item → Except String String)
    (cutout : String → Except String String)
    (describe : String → Except String String)
    (startVideo : String → String → Except String VideoOp) : GenOut :=
  if isGenerateDisabled sel g || sel.products.isEmpty || sel.models.isEmpty ||
      sel.pose.isNone then
    { generationState := g, generationError := prevError,
      generatedResult := prevResult, videoDescription := prevVideoDescription,
      calls := [] }
  else
    let shootCalls : List Call := sel.models.map (fun _ => Call.shoot)
    match allShoot shoot sel.models with
    | Except.error e =>
      { generationState := GenerationState.error, generationError := some e,
        generatedResult := some (fulfilledShots shoot sel.models),
        videoDescription := prevVideoDescription, calls := shootCalls }
    | Except.ok results =>
      if sel.models.length > 1 || results.isEmpty then
        { generationState := GenerationState.success, generationError := none,
          generatedResult := some results,
          videoDescription := prevVideoDescription, calls := shootCalls }
      else
        match results with
        | [] =>
          { generationState := GenerationState.success, generationError := none,
            generatedResult := some results,
            videoDescription := prevVideoDescription, calls := shootCalls }
        | r0 :: rest =>
          let r1 := match cutout r0.image with
            | Except.ok c => { r0 with cutoutImage := some c }
            | Except.error _ => r0
          match describe r0.image with
          | Except.error e =>
            { generationState := GenerationState.error, generationError := some e,
              generatedResult := some (r1 :: rest),
              videoDescription := prevVideoDescription,
              calls := shootCalls ++ [Call.cutout, Call.describe] }
          | Except.ok desc =>
            match startVideo r0.image desc with
            | Except.error e =>
              { generationState := GenerationState.error,
                generationError := some e,
                generatedResult := some (r1 :: rest),
                videoDescription := some desc,
                calls := shootCalls ++ [Call.cutout, Call.describe, Call.startVideo] }
            | Except.ok op =>
              { generationState := GenerationState.loadingVideo,
                generationError := none,
                generatedResult := some [{ r1 with videoOperation := some op }],
                videoDescription := some desc,
                calls := shootCalls ++ [Call.cutout, Call.describe, Call.startVideo] }

/-- Output of one tick of the poll `useEffect` of the second/third variants. -/
structure TickOut where
  generationState : GenerationState
  generationError : Option String
  generatedResult : Option (List GenResult)
  scheduled : Bool
  calls : List Call
deriving DecidableEq, Repr

/-- The video poll `useEffect` of the second/third variants (`App.tsx`
lines 887-917 and 1440-1470).  The interval exists only while
`generationState === 'loading-video'`, the result array is non-empty and
its head holds a not-yet-`done` operation handle (lines 888/1441); when the
guard fails the tick does nothing and nothing further is scheduled.
A scheduled tick makes one `pollVideoOperation` call; a thrown poll is
caught (lines 906-912 / 1459-1465): the message is stored, the state set to
`error` and the interval cleared — no retry.  `done` with a URI resolves the
video (`success`); `done` without one errors; not-`done` re-schedules. -/
def pollTick (key : String) (g : GenerationState) (err : Option String)
    (res : Option (List GenResult)) (pollOp : Except String VideoOp) : TickOut :=
  let noTick : TickOut :=
    { generationState := g, generationError := err, generatedResult := res,
      scheduled := false, calls := [] }
  match g, res with
  | GenerationState.loadingVideo, some (r0 :: rest) =>
    (match r0.videoOperation with
     | none => noTick
     | some op =>
       if op.done then noTick
       else
         match pollOp with
         | Except.error e =>
           { generationState := GenerationState.error, generationError := some e,
             generatedResult := some (r0 :: rest), scheduled := false,
             calls := [Call.poll] }
         | Except.ok op2 =>
           if op2.done then
             match op2.uri with
             | some u =>
               { generationState := GenerationState.success,
                 generationError := err,
                 generatedResult := some [{ r0 with
                   video := some (u ++ "&key=" ++ key),
                   videoOperation := some op2 }],
                 scheduled := false, calls := [Call.poll] }
             | none =>
               { generationState := GenerationState.error,
                 generationError :=
                   some "Video generation completed, but no video URI was found.",
                 generatedResult := some (r0 :: rest), scheduled := false,
                 calls := [Call.poll] }
           else
             { generationState := GenerationState.loadingVideo,
               generationError := err,
               generatedResult := some [{ r0 with videoOperation := some op2 }],
               scheduled := true, calls := [Call.poll] })
  | _, _ => noTick

/-- A lookbook `Collection` of the second `types.ts` variant:
`{ id, timestamp, result, selections }`. -/
structure Collection where
  id : Nat
  timestamp : Nat
  result : List GenResult
  selections : Selections
deriving DecidableEq, Repr

/-- The application state of the second/third variants (the fields the
pipeline and lookbook touch). -/
structure AppState where
  sel : Selections
  generationState : GenerationState
  generationError : Option String
  generatedResult : Option (List GenResult)
  videoDescription : Option String
  lookbook : List Collection
deriving DecidableEq, Repr

/-- `createToggleHandler` with `singleSelection = false` (`App.tsx`
lines 764-775 / 1318-1329): toggle membership by id. -/
def toggleList (l : List Item) (x : Item) : List Item :=
  if l.any (fun p => p.id = x.id) then l.filter (fun p => p.id ≠ x.id)
  else l ++ [x]

/-- `handleSelectProduct` (`App.tsx` line 777/1331). -/
def handleSelectProduct (s : AppState) (p : Item) : AppState :=
  { s with sel := { s.sel with products := toggleList s.sel.products p } }

/-- `handleSelectModel` (`App.tsx` line 778/1332). -/
def handleSelectModel (s : AppState) (m : Item) : AppState :=
  { s with sel := { s.sel with models := toggleList s.sel.models m } }

/-- `handleSelectAccessory` (`App.tsx` line 779/1333). -/
def handleSelectAccessory (s : AppState) (a : Item) : AppState :=
  { s with sel := { s.sel with accessories := toggleList s.sel.accessories a } }

/-- `handleSelectScene` (`App.tsx` lines 781-784 / 1335-1338): sets the
scene and clears the solid color. -/
def handleSelectScene (s : AppState) (sc : Item) : AppState :=
  { s with sel := { s.sel with scene := some sc, color := none } }

/-- `handleColorChange` (`App.tsx` lines 786-789 / 1340-1343): sets the
solid color and clears the scene. -/
def handleColorChange (s : AppState) (c : String) : AppState :=
  { s with sel := { s.sel with color := some c, scene := none } }

/-- `onSelectPose={setSelectedPose}` (`App.tsx` line 1053/1612). -/
def setPose (s : AppState) (p : Option PoseItem) : AppState :=
  { s with sel := { s.sel with pose := p } }

/-- The first entry of `INITIAL_POSES` (`data.ts` line 33), restored by
`resetSelections`. -/
def initialPose : PoseItem := { id := 1, name := "Standing", prompt := "" }

/-- `resetSelections` (`App.tsx` lines 693-706 / 1247-1260): clears every
selection (pose back to `poses[0]`), drops the result, and returns the
state machine to `idle` with no error. -/
def resetSelections (s : AppState) : AppState :=
  { s with
    sel := { products := [], models := [], scene := none, color := none,
             accessories := [], pose := some initialPose },
    generatedResult := none,
    generationState := GenerationState.idle,
    generationError := none }

/-- `saveToLookbook` (`App.tsx` lines 919-935 / 1472-1488): refused unless a
result exists and products/models/pose are selected; otherwise prepends an
immutable snapshot of the current result and selections. -/
def saveToLookbook (s : AppState) (id ts : Nat) : AppState :=
  match s.generatedResult with
  | none => s
  | some rs =>
    if s.sel.products.isEmpty || s.sel.models.isEmpty || s.sel.pose.isNone then s
    else
      { s with lookbook :=
          { id := id, timestamp := ts, result := rs, selections := s.sel } ::
            s.lookbook }

/-- `loadFromLookbook` (`App.tsx` lines 937-946 / 1490-1499): restores the
entry's selections and result and shows `success`. -/
def loadFromLookbook (s : AppState) (e : Collection) : AppState :=
  { s with
    sel := e.selections,
    generatedResult := some e.result,
    generationState := GenerationState.success }

/-- `applySuggestion` (`App.tsx` lines 808-819 / 1362-1373): reset, then set
the matched products (when any), model, scene (when found) and accessories.
No color is ever set on this path. -/
def applySuggestion (s : AppState) (ps : List Item) (m : Option Item)
    (sc : Option Item) (accs : List Item) : AppState :=
  let s1 := resetSelections s
  let s2 := if ps.isEmpty then s1 else
    { s1 with sel := { s1.sel with products := ps } }
  let s3 := match m with
    | some mm => { s2 with sel := { s2.sel with models := [mm] } }
    | none => s2
  let s4 := match sc with
    | some scc => { s3 with sel := { s3.sel with scene := some scc } }
    | none => s3
  { s4 with sel := { s4.sel with accessories := accs } }

/-- The state effect of one `handleGenerate` invocation. -/
def applyGenerate (s : AppState)
    (shoot : Item → Except String String)
    (cutout : String → Except String String)
    (describe : String → Except String String)
    (startVideo : String → String → Except String VideoOp) : AppState :=
  let o := handleGenerate s.sel s.generationState s.generationError
    s.generatedResult s.videoDescription shoot cutout describe startVideo
  { s with
    generationState := o.generationState,
    generationError := o.generationError,
    generatedResult := o.generatedResult,
    videoDescription := o.videoDescription }

/-- The state effect of one video poll tick. -/
def applyPollTick (s : AppState) (key : String)
    (pollOp : Except String VideoOp) : AppState :=
  let o := pollTick key s.generationState s.generationError s.generatedResult pollOp
  { s with
    generationState := o.generationState,
    generationError := o.generationError,
    generatedResult := o.generatedResult }

/-- One user/pipeline event of the second/third variants. `load` may only
replay an entry actually present in the lookbook (the UI maps over it). -/
inductive Step : AppState → AppState → Prop where
  | toggleProduct (s : AppState) (p : Item) : Step s (handleSelectProduct s p)
  | toggleModel (s : AppState) (m : Item) : Step s (handleSelectModel s m)
  | toggleAccessory (s : AppState) (a : Item) : Step s (handleSelectAccessory s a)
  | selectScene (s : AppState) (sc : Item) : Step s (handleSelectScene s sc)
  | colorChange (s : AppState) (c : String) : Step s (handleColorChange s c)
  | choosePose (s : AppState) (p : Option PoseItem) : Step s (setPose s p)
  | reset (s : AppState) : Step s (resetSelections s)
  | save (s : AppState) (id ts : Nat) : Step s (saveToLookbook s id ts)
  | load (s : AppState) (e : Collection) (he : e ∈ s.lookbook) :
      Step s (loadFromLookbook s e)
  | suggest (s : AppState) (ps : List Item) (m : Option Item) (sc : Option Item)
      (accs : List Item) : Step s (applySuggestion s ps m sc accs)
  | generate (s : AppState) (shoot : Item → Except String String)
      (cutout : String → Except String String)
      (describe : String → Except String String)
      (startVideo : String → String → Except String VideoOp) :
      Step s (applyGenerate s shoot cutout describe startVideo)
  | pollEvent (s : AppState) (key : String) (pollOp : Except String VideoOp) :
      Step s (applyPollTick s key pollOp)

/-- The initial state (`useState` initializers, `App.tsx` lines 666-686 /
1220-1241): empty selections, `poses[0]` preselected, `idle`, no result,
empty lookbook. -/
def initialState : AppState :=
  { sel := { products := [], models := [], scene := none, color := none,
             accessories := [], pose := some initialPose },
    generationState := GenerationState.idle,
    generationError := none,
    generatedResult := none,
    videoDescription := none,
    lookbook := [] }

/-- States reachable from the initial state through app events. -/
inductive Reachable : AppState → Prop where
  | init : Reachable initialState
  | step (s t : AppState) : Reachable s → Step s t → Reachable t

/-- One category's catalog alongside the matching multi-selection array of
the second/third variants. -/
structure CatalogState where
  catalog : List Item
  selection : List Item
deriving DecidableEq, Repr

/-- The whole-state effect of a `createDeleteHandler` deletion (`App.tsx`
lines 753-756 / 1307-1310): the handler only filters the catalog setter;
the corresponding `selected*` array is not touched. -/
def deleteItem (s : CatalogState) (targetId : Nat) : CatalogState :=
  { s with catalog := s.catalog.filter (fun item => item.id ≠ targetId) }

end AppV3

/-- Whether an `Except` computation fulfilled. -/
def isOkE {ε α : Type _} : Except ε α → Bool
  | Except.ok _ => true
  | Except.error _ => false

/-
Concrete fixtures used by counterexamples and witnesses.
-/

/-- A concrete model. -/
def modelAva : Item := { id := 1, name := "Ava", imageUrl := "ava.png" }

/-- A second concrete model. -/
def modelBea : Item := { id := 2, name := "Bea", imageUrl := "bea.png" }

/-- A concrete product. -/
def productJacket : Item := { id := 10, name := "Denim Jacket", imageUrl := "jacket.png" }

/-- A concrete scene. -/
def sceneMountain : Item := { id := 20, name := "Mountain View", imageUrl := "mountain.png" }

/-- A concrete pose. -/
def poseStanding : PoseItem := { id := 1, name := "Standing", prompt := "standing tall" }

/-- A not-yet-finished video operation handle. -/
def pendingOp : VideoOp := { done := false, errMsg := none, uri := none }

/-- A finished video operation carrying a download URI. -/
def doneOpWithUri : VideoOp :=
  { done := true, errMsg := none, uri := some "https://v.example/video?alt=media" }

/-- A head job of the second/third variants holding a pending operation. -/
def jobAvaPending : AppV3.GenResult :=
  { model := modelAva, image := "shot.png", cutoutImage := none,
    video := none, videoOperation := some pendingOp }

/-- Another pending head job. -/
def jobBeaPending : AppV3.GenResult :=
  { model := modelBea, image := "b.png", cutoutImage := none,
    video := none, videoOperation := some pendingOp }

/-- A first-variant collection entry holding an image and a pending video
operation (as created automatically by that variant during generation). -/
def savedEntry : AppV1.Collection :=
  { id := 3, timestamp := 5,
    result := { image := some "shot.png", video := none, error := none,
                videoOperation := some pendingOp, cutoutImage := none } }

/-- `savedEntry` as the first-variant poll loop rewrites it once the
operation resolves with a URI (key "k" appended). -/
def savedEntryAfterPoll : AppV1.Collection :=
  { id := 3, timestamp := 5,
    result := { image := some "shot.png",
                video := some "https://v.example/video?alt=media&key=k",
                error := none, videoOperation := some doneOpWithUri,
                cutoutImage := none } }

/-- A complete set of selections for the second/third variants. -/
def readySelections : AppV3.Selections :=
  { products := [productJacket], models := [modelAva],
    scene := some sceneMountain, color := none, accessories := [],
    pose := some poseStanding }

/-- A second/third-variant state holding a completed run, ready to save. -/
def readyState : AppV3.AppState :=
  { sel := readySelections, generationState := GenerationState.success,
    generationError := none, generatedResult := some [jobAvaPending],
    videoDescription := none, lookbook := [] }

/-- Scene-or-color mutual exclusion on one selection record. -/
def AppV3.SelMutex (sel : AppV3.Selections) : Prop :=
  sel.scene = none ∨ sel.color = none

/-- The inductive invariant behind the mutual exclusion: it holds of the
live selections and of every selection snapshot stored in the lookbook. -/
def AppV3.LookInv (s : AppV3.AppState) : Prop :=
  AppV3.SelMutex s.sel ∧ ∀ e ∈ s.lookbook, AppV3.SelMutex e.selections

/-- An oracle under which every angle call for model id 1 fulfils without an
image part and every angle call for any other model returns an image. -/
def respondSoftHard : Nat → String → Except String (Option String) :=
  fun mid _a => if mid = 1 then Except.ok none else Except.ok (some "bea-shot.png")

namespace GeminiSvc

/-- When every angle call of `l` fulfils, the collected images are exactly
the successful angles, in order. -/
theorem collectAngles_ok (respond : Nat → String → Except String (Option String))
    (mid : Nat) (l : List String)
    (h : ∀ a ∈ l, ∃ r, respond mid a = Except.ok r) :
    collectAngles respond mid l = Except.ok (successfulAngles respond mid l) := by
  induction l with
  | nil => rfl
  | cons a rest ih =>
    obtain ⟨r, hr⟩ := h a (List.mem_cons_self a rest)
    have ih2 := ih (fun b hb => h b (List.mem_cons_of_mem a hb))
    cases r with
    | none =>
      simp only [collectAngles, successfulAngles, List.filterMap_cons, hr]
      simp only [successfulAngles] at ih2
      rw [ih2]
    | some img =>
      simp only [collectAngles, successfulAngles, List.filterMap_cons, hr]
      simp only [successfulAngles] at ih2
      rw [ih2]

/-- When every angle call of `l` fulfils without an image, nothing is
collected. -/
theorem collectAngles_none (respond : Nat → String → Except String (Option String))
    (mid : Nat) (l : List String)
    (h : ∀ a ∈ l, respond mid a = Except.ok none) :
    collectAngles respond mid l = Except.ok [] := by
  induction l with
  | nil => rfl
  | cons a rest ih =>
    have hr := h a (List.mem_cons_self a rest)
    have ih2 := ih (fun b hb => h b (List.mem_cons_of_mem a hb))
    simp [collectAngles, hr, ih2]

/-- When no angle call throws and every model keeps at least one angle,
the sequential model loop fulfils with one entry per model holding exactly
its successful angles. -/
theorem composeLoop_ok (respond : Nat → String → Except String (Option String))
    (models : List Item)
    (hok : ∀ m ∈ models, ∀ a ∈ angles, ∃ r, respond m.id a = Except.ok r)
    (hsome : ∀ m ∈ models, ∃ a ∈ angles, ∃ img, respond m.id a = Except.ok (some img)) :
    composeLoop respond models = Except.ok
      (models.map (fun m =>
        { model := m, images := successfulAngles respond m.id angles })) := by
  induction models with
  | nil => rfl
  | cons m rest ih =>
    have h1 := collectAngles_ok respond m.id angles (hok m (List.mem_cons_self m rest))
    obtain ⟨a, ha, img, hi⟩ := hsome m (List.mem_cons_self m rest)
    have hmem : ({ angle := a, image := img } : AngleImage) ∈
        successfulAngles respond m.id angles :=
      List.mem_filterMap.mpr ⟨a, ha, by rw [hi]⟩
    have hne : successfulAngles respond m.id angles ≠ [] :=
      List.ne_nil_of_mem hmem
    have hni : (successfulAngles respond m.id angles).isEmpty = false := by
      cases hsa : successfulAngles respond m.id angles with
      | nil => exact absurd hsa hne
      | cons x xs => rfl
    have ih2 := ih (fun b hb => hok b (List.mem_cons_of_mem m hb))
      (fun b hb => hsome b (List.mem_cons_of_mem m hb))
    simp [composeLoop, h1, hni, ih2]

/-- When some model of the list answers every angle without an image, the
sequential loop ends in a throw (whichever model throws first). -/
theorem composeLoop_error_of_all_none
    (respond : Nat → String → Except String (Option String))
    (models : List Item) (m : Item) (hm : m ∈ models)
    (hnone : ∀ a ∈ angles, respond m.id a = Except.ok none) :
    isOkE (composeLoop respond models) = false := by
  induction models with
  | nil => cases hm
  | cons m0 rest ih =>
    rcases List.mem_cons.mp hm with h | h
    · subst h
      have hc := collectAngles_none respond m.id angles hnone
      simp [composeLoop, hc, isOkE]
    · cases hca : collectAngles respond m0.id angles with
      | error e => simp [composeLoop, hca, isOkE]
      | ok imgs =>
        by_cases hemp : imgs.isEmpty
        · simp [composeLoop, hca, hemp, isOkE]
        · have htail := ih h
          cases hcl : composeLoop respond rest with
          | error e => simp [composeLoop, hca, hemp, hcl, isOkE]
          | ok tail => rw [hcl] at htail; simp [isOkE] at htail

end GeminiSvc

/-- C2 counterexample: with models Ava (id 1) and Bea (id 2), every one of
Bea's three angle calls succeeds — `collectAngles` for Bea fulfils with all
three angle images — yet because every angle call for Ava returns no image,
`composeFinalImage` rejects as a whole: the claimed containment (only Ava's
job marked failed, Bea's job unaffected) does not hold — Bea's fully
successful job is discarded with the rest of the run. -/
theorem compose_all_angles_failed_discards_other_models_cex :
    GeminiSvc.collectAngles respondSoftHard 2 GeminiSvc.angles =
      Except.ok [{ angle := "Front View", image := "bea-shot.png" },
        { angle := "Three-Quarter View", image := "bea-shot.png" },
        { angle := "Side View", image := "bea-shot.png" }] ∧
    GeminiSvc.composeFinalImage [modelAva, modelBea] respondSoftHard =
      Except.error ("Failed to compose image. Details: Image composition failed for model Ava. The model did not return any images.") := by
  constructor
  · rfl
  · rfl

/-- C2 (amended): soft containment holds only within one model and only for
imageless responses — when no angle call throws and every model keeps at
least one angle image, `composeFinalImage` fulfils with, per model, exactly
its successful angles (a failed angle is omitted, the job not failed); but
when every angle call of some model returns no image, the whole
`composeFinalImage` call rejects, so the jobs of all other selected models
are discarded with it rather than left unaffected. -/
theorem compose_soft_and_hard_failure :
    (∀ (models : List Item) (respond : Nat → String → Except String (Option String)),
      (∀ m ∈ models, ∀ a ∈ GeminiSvc.angles, ∃ r, respond m.id a = Except.ok r) →
      (∀ m ∈ models, ∃ a ∈ GeminiSvc.angles, ∃ img,
        respond m.id a = Except.ok (some img)) →
      GeminiSvc.composeFinalImage models respond = Except.ok
        (models.map (fun m =>
          { model := m,
            images := GeminiSvc.successfulAngles respond m.id GeminiSvc.angles }))) ∧
    (∀ (models : List Item) (respond : Nat → String → Except String (Option String))
        (m : Item), m ∈ models →
      (∀ a ∈ GeminiSvc.angles, respond m.id a = Except.ok none) →
      isOkE (GeminiSvc.composeFinalImage models respond) = false) := by
  constructor
  · intro models respond hok hsome
    have h := GeminiSvc.composeLoop_ok respond models hok hsome
    simp [GeminiSvc.composeFinalImage, h]
  · intro models respond m hm hnone
    have h := GeminiSvc.composeLoop_error_of_all_none respond models m hm hnone
    cases hc : GeminiSvc.composeLoop respond models with
    | ok rs => rw [hc] at h; simp [isOkE] at h
    | error e => simp [GeminiSvc.composeFinalImage, hc, isOkE]

/-- Witness for `compose_soft_and_hard_failure`: at a concrete run with one
model answering every angle (soft half instantiated with Bea alone) and at
the concrete two-model run where Ava answers no angle (hard half), the
hypotheses hold and the conclusions evaluate. -/
theorem compose_soft_and_hard_failure_witness :
    GeminiSvc.composeFinalImage [modelBea] respondSoftHard = Except.ok
      ([modelBea].map (fun m =>
        { model := m,
          images := GeminiSvc.successfulAngles respondSoftHard m.id GeminiSvc.angles })) ∧
    isOkE (GeminiSvc.composeFinalImage [modelAva, modelBea] respondSoftHard) = false := by
  constructor
  · exact compose_soft_and_hard_failure.1 [modelBea] respondSoftHard
      (by intro m hm a ha
          simp [List.mem_singleton] at hm
          subst hm
          exact ⟨some "bea-shot.png", rfl⟩)
      (by intro m hm
          simp [List.mem_singleton] at hm
          subst hm
          exact ⟨"Front View", by simp [GeminiSvc.angles], "bea-shot.png", rfl⟩)
  · exact compose_soft_and_hard_failure.2 [modelAva, modelBea] respondSoftHard modelAva
      (by simp) (by intro a ha; rfl)

/-- C1 counterexample: the first variant's generate action proceeds while a
non-terminal loading state is active.  With every required selection present
but the pipeline in `loading-image`, `AppV1.handleGenerate` (whose only
in-action guard is `isGenerationDisabled`, which never reads the generation
state) issues the composition, description, video-submission and cutout
backend calls and rewrites the generation state and result — the claim
requires it to return with no backend call and the state unchanged. -/
theorem generate_ignores_busy_state_cex :
    (AppV1.handleGenerate (some productJacket) (some modelAva) (some sceneMountain)
        none (some poseStanding) GenerationState.loadingImage none [] 7 0
        (Except.ok "shot.png") (fun _ => Except.ok "a walking model")
        (fun _ _ => Except.ok pendingOp) (fun _ => Except.ok "cut.png")).calls =
      [Call.shoot, Call.describe, Call.startVideo, Call.cutout] ∧
    (AppV1.handleGenerate (some productJacket) (some modelAva) (some sceneMountain)
        none (some poseStanding) GenerationState.loadingImage none [] 7 0
        (Except.ok "shot.png") (fun _ => Except.ok "a walking model")
        (fun _ _ => Except.ok pendingOp) (fun _ => Except.ok "cut.png")).generationState =
      GenerationState.loadingVideo := by
  exact ⟨rfl, rfl⟩

/-- C1 (amended): the refusal holds as claimed for the variant guarded by
`isGenerateDisabled` — missing product, model, pose or background, or a busy
(non-terminal) generation state, makes the action return with the state,
error, result and description unchanged and no backend call issued; in the
first variant the action refuses only on missing selections (its
busy-state guard lives on the button, not in the action). -/
theorem generate_refusal_guard :
    (∀ (sel : AppV3.Selections) (g : GenerationState) (pe : Option String)
        (pr : Option (List AppV3.GenResult)) (pv : Option String)
        (shoot : Item → Except String String)
        (cutout describe : String → Except String String)
        (startVideo : String → String → Except String VideoOp),
      (sel.products = [] ∨ sel.models = [] ∨ sel.pose = none ∨
        (sel.scene = none ∧ sel.color = none) ∨ g.isBusy = true) →
      AppV3.handleGenerate sel g pe pr pv shoot cutout describe startVideo =
        { generationState := g, generationError := pe, generatedResult := pr,
          videoDescription := pv, calls := [] }) ∧
    (∀ (product model scene : Option Item) (color : Option String)
        (pose : Option PoseItem) (ps : GenerationState)
        (prv : Option AppV1.GeneratedResult) (pc : List AppV1.Collection)
        (eid ets : Nat) (shoot : Except String String)
        (describe : String → Except String String)
        (startVideo : String → String → Except String VideoOp)
        (cutout : String → Except String String),
      (product = none ∨ model = none ∨ (scene = none ∧ color = none) ∨ pose = none) →
      AppV1.handleGenerate product model scene color pose ps prv pc eid ets
          shoot describe startVideo cutout =
        { generationState := ps, generatedResult := prv, collections := pc,
          calls := [] }) := by
  constructor
  · intro sel g pe pr pv shoot cutout describe startVideo h
    rcases h with h | h | h | ⟨h1, h2⟩ | h
    · simp [AppV3.handleGenerate, AppV3.isGenerateDisabled, h]
    · simp [AppV3.handleGenerate, AppV3.isGenerateDisabled, h]
    · simp [AppV3.handleGenerate, AppV3.isGenerateDisabled, h]
    · simp [AppV3.handleGenerate, AppV3.isGenerateDisabled, h1, h2]
    · simp [AppV3.handleGenerate, AppV3.isGenerateDisabled, h]
  · intro product model scene color pose ps prv pc eid ets shoot describe startVideo cutout h
    rcases h with h | h | ⟨h1, h2⟩ | h
    · simp [AppV1.handleGenerate, AppV1.isGenerationDisabled, h]
    · simp [AppV1.handleGenerate, AppV1.isGenerationDisabled, h]
    · simp [AppV1.handleGenerate, AppV1.isGenerationDisabled, h1, h2]
    · simp [AppV1.handleGenerate, AppV1.isGenerationDisabled, h]

/-- Witness for `generate_refusal_guard`: a busy-state invocation with full
selections is refused by the `isGenerateDisabled` variant, and a
missing-model invocation is refused by the first variant. -/
theorem generate_refusal_guard_witness :
    AppV3.handleGenerate
        { products := [productJacket], models := [modelAva],
          scene := some sceneMountain, color := none, accessories := [],
          pose := some poseStanding }
        GenerationState.loadingImage none none none
        (fun _ => Except.ok "img") (fun _ => Except.ok "cut")
        (fun _ => Except.ok "desc") (fun _ _ => Except.ok pendingOp) =
      { generationState := GenerationState.loadingImage, generationError := none,
        generatedResult := none, videoDescription := none, calls := [] } ∧
    AppV1.handleGenerate (some productJacket) none (some sceneMountain) none
        (some poseStanding) GenerationState.idle none [] 1 0
        (Except.ok "img") (fun _ => Except.ok "desc")
        (fun _ _ => Except.ok pendingOp) (fun _ => Except.ok "cut") =
      { generationState := GenerationState.idle, generatedResult := none,
        collections := [], calls := [] } := by
  constructor
  · exact generate_refusal_guard.1 _ _ _ _ _ _ _ _ _ (Or.inr (Or.inr (Or.inr (Or.inr rfl))))
  · exact generate_refusal_guard.2 _ _ _ _ _ _ _ _ _ _ _ _ _ _ (Or.inr (Or.inl rfl))

namespace AppV3

/-- When every per-model shot fulfils, `Promise.all` fulfils with one fresh
result per model, and the progressive appends list them all. -/
theorem allShoot_eq_fulfilled (shoot : Item → Except String String)
    (l : List Item) (h : ∀ m ∈ l, ∃ img, shoot m = Except.ok img) :
    allShoot shoot l = Except.ok (fulfilledShots shoot l) ∧
      (fulfilledShots shoot l).length = l.length := by
  induction l with
  | nil => exact ⟨rfl, rfl⟩
  | cons m rest ih =>
    obtain ⟨img, hi⟩ := h m (List.mem_cons_self m rest)
    have ih2 := ih (fun b hb => h b (List.mem_cons_of_mem m hb))
    constructor
    · simp [allShoot, fulfilledShots, List.filterMap_cons, hi, ih2.1]
    · simp [fulfilledShots, List.filterMap_cons, hi]
      simpa [fulfilledShots] using ih2.2

end AppV3

/-- C3: video generation is launched automatically only for single-model
runs — for a generation started with two or more selected models whose
composition calls all fulfil, `handleGenerate` ends in `success` with one
independent job per selected model, and its backend trace holds only the
per-model composition calls: no video-description derivation and no video
job submission (and no cutout) is started for any job. -/
theorem multi_model_skips_video (sel : AppV3.Selections) (g : GenerationState)
    (pe : Option String) (pr : Option (List AppV3.GenResult)) (pv : Option String)
    (shoot : Item → Except String String)
    (cutout describe : String → Except String String)
    (startVideo : String → String → Except String VideoOp)
    (hm : 2 ≤ sel.models.length)
    (hg : AppV3.isGenerateDisabled sel g = false)
    (hok : ∀ m ∈ sel.models, ∃ img, shoot m = Except.ok img) :
    AppV3.handleGenerate sel g pe pr pv shoot cutout describe startVideo =
      { generationState := GenerationState.success, generationError := none,
        generatedResult := some (AppV3.fulfilledShots shoot sel.models),
        videoDescription := pv, calls := sel.models.map (fun _ => Call.shoot) } ∧
    (AppV3.fulfilledShots shoot sel.models).length = sel.models.length ∧
    Call.describe ∉ sel.models.map (fun _ => Call.shoot) ∧
    Call.startVideo ∉ sel.models.map (fun _ => Call.shoot) := by
  have hprod : sel.products.isEmpty = false := by
    cases hpe : sel.products.isEmpty with
    | false => rfl
    | true => rw [AppV3.isGenerateDisabled] at hg; simp [hpe] at hg
  have hmodels : sel.models.isEmpty = false := by
    cases hpe : sel.models.isEmpty with
    | false => rfl
    | true => rw [AppV3.isGenerateDisabled] at hg; simp [hpe] at hg
  have hpose : sel.pose.isNone = false := by
    cases hpe : sel.pose.isNone with
    | false => rfl
    | true => rw [AppV3.isGenerateDisabled] at hg; simp [hpe] at hg
  obtain ⟨hall, hlen⟩ := AppV3.allShoot_eq_fulfilled shoot sel.models hok
  have h2 : 1 < sel.models.length := hm
  refine ⟨?_, hlen, ?_, ?_⟩
  · simp [AppV3.handleGenerate, hg, hprod, hmodels, hpose, hall, h2]
  · simp [List.mem_map]
  · simp [List.mem_map]

/-- Witness for `multi_model_skips_video`: the concrete two-model run. -/
theorem multi_model_skips_video_witness :
    AppV3.handleGenerate
        { products := [productJacket], models := [modelAva, modelBea],
          scene := some sceneMountain, color := none, accessories := [],
          pose := some poseStanding }
        GenerationState.idle none none none
        (fun _ => Except.ok "img.png") (fun _ => Except.ok "cut.png")
        (fun _ => Except.ok "desc") (fun _ _ => Except.ok pendingOp) =
      { generationState := GenerationState.success, generationError := none,
        generatedResult := some (AppV3.fulfilledShots (fun _ => Except.ok "img.png")
          [modelAva, modelBea]),
        videoDescription := none, calls := [modelAva, modelBea].map (fun _ => Call.shoot) } ∧
    (AppV3.fulfilledShots (fun _ => Except.ok "img.png") [modelAva, modelBea]).length =
      ([modelAva, modelBea] : List Item).length ∧
    Call.describe ∉ ([modelAva, modelBea] : List Item).map (fun _ => Call.shoot) ∧
    Call.startVideo ∉ ([modelAva, modelBea] : List Item).map (fun _ => Call.shoot) := by
  exact multi_model_skips_video
    { products := [productJacket], models := [modelAva, modelBea],
      scene := some sceneMountain, color := none, accessories := [],
      pose := some poseStanding }
    GenerationState.idle none none none
    (fun _ => Except.ok "img.png") (fun _ => Except.ok "cut.png")
    (fun _ => Except.ok "desc") (fun _ _ => Except.ok pendingOp)
    (by decide) (by decide) (by intro m hm; exact ⟨"img.png", rfl⟩)

/-- C4 counterexample: a transient fetch error thrown during a scheduled
poll tick is not retried.  With the pipeline in `loading-video` and a
pending operation handle on the head job, a tick whose poll attempt throws
a network error resolves the run to the `error` state, stores the message
and clears the interval (`scheduled = false`), so the operation is never
polled again — the claim requires the error not to be surfaced and the
loop to poll again on the next tick. -/
theorem poll_transient_error_fatal_cex :
    AppV3.pollTick "k" GenerationState.loadingVideo none (some [jobAvaPending])
        (Except.error "TypeError: Failed to fetch") =
      { generationState := GenerationState.error,
        generationError := some "TypeError: Failed to fetch",
        generatedResult := some [jobAvaPending],
        scheduled := false, calls := [Call.poll] } := by
  rfl

/-- C4 (amended): every error thrown during a scheduled poll tick —
transient network errors included — is fatal: the tick stores the thrown
message, transitions the pipeline to the `error` state, leaves the result
array as it was, and cancels further scheduling; the code draws no
distinction between a transient poll-attempt failure and a backend-reported
terminal failure, and no failed poll is retried. -/
theorem poll_error_always_fatal (key : String) (err : Option String)
    (r0 : AppV3.GenResult) (rest : List AppV3.GenResult) (op : VideoOp) (e : String)
    (hop : r0.videoOperation = some op) (hnd : op.done = false) :
    AppV3.pollTick key GenerationState.loadingVideo err (some (r0 :: rest))
        (Except.error e) =
      { generationState := GenerationState.error, generationError := some e,
        generatedResult := some (r0 :: rest), scheduled := false,
        calls := [Call.poll] } := by
  simp [AppV3.pollTick, hop, hnd]

/-- Witness for `poll_error_always_fatal`: the concrete pending job whose
poll attempt throws. -/
theorem poll_error_always_fatal_witness :
    AppV3.pollTick "key" GenerationState.loadingVideo none (some [jobBeaPending])
        (Except.error "socket hang up") =
      { generationState := GenerationState.error,
        generationError := some "socket hang up",
        generatedResult := some [jobBeaPending],
        scheduled := false, calls := [Call.poll] } := by
  exact poll_error_always_fatal "key" none jobBeaPending
    [] pendingOp "socket hang up" rfl rfl

/-- C5: salvage-link preservation — when a poll observes a terminal failure
(`done` with an error object), `checkVideoStatus` throws an error whose
`directDownloadUrl` is exactly the URI option of the backend response: the
URI itself when the response contains one, and absent when it does not,
never a fabricated value. -/
theorem salvage_link_preserved (key : String)
    (fetchVideo : String → Except String String) (op : VideoOp) (m : String)
    (hd : op.done = true) (he : op.errMsg = some m) (hm : m ≠ "") :
    GeminiP1.checkVideoStatus key fetchVideo op =
      Except.error { message := m, directDownloadUrl := op.uri } := by
  simp [GeminiP1.checkVideoStatus, hd, he, hm]

/-- Witness for `salvage_link_preserved`: a terminal failure whose response
carries a download URI exposes exactly that URI, and one without a URI
exposes none. -/
theorem salvage_link_preserved_witness :
    GeminiP1.checkVideoStatus "k" (fun _ => Except.ok "blob")
        { done := true, errMsg := some "resource exhausted",
          uri := some "https://dl.example/video" } =
      Except.error { message := "resource exhausted",
                     directDownloadUrl := some "https://dl.example/video" } ∧
    GeminiP1.checkVideoStatus "k" (fun _ => Except.ok "blob")
        { done := true, errMsg := some "resource exhausted", uri := none } =
      Except.error { message := "resource exhausted", directDownloadUrl := none } := by
  constructor
  · exact salvage_link_preserved "k" (fun _ => Except.ok "blob")
      { done := true, errMsg := some "resource exhausted",
        uri := some "https://dl.example/video" }
      "resource exhausted" rfl rfl (by decide)
  · exact salvage_link_preserved "k" (fun _ => Except.ok "blob")
      { done := true, errMsg := some "resource exhausted", uri := none }
      "resource exhausted" rfl rfl (by decide)

/-- C6 counterexample: in the first variant, the cutout promise is awaited
inside `Promise.all` alongside the video promise, so a cutout failure is
not soft — with every other call fulfilled, a rejected cutout sends the
pipeline to the `error` state and REPLACES the live result with an
error-only record (the already-produced image is dropped from it), while
the claim requires the failure to be only logged, the run not aborted, and
the image field unaffected. -/
theorem cutout_failure_aborts_run_cex :
    (AppV1.handleGenerate (some productJacket) (some modelAva) (some sceneMountain)
        none (some poseStanding) GenerationState.idle none [] 7 0
        (Except.ok "shot.png") (fun _ => Except.ok "a walking model")
        (fun _ _ => Except.ok pendingOp)
        (fun _ => Except.error "Cutout failed")).generationState =
      GenerationState.error ∧
    (AppV1.handleGenerate (some productJacket) (some modelAva) (some sceneMountain)
        none (some poseStanding) GenerationState.idle none [] 7 0
        (Except.ok "shot.png") (fun _ => Except.ok "a walking model")
        (fun _ _ => Except.ok pendingOp)
        (fun _ => Except.error "Cutout failed")).generatedResult =
      some { image := none, video := none, error := some "Cutout failed",
             videoOperation := none, cutoutImage := none } := by
  exact ⟨rfl, rfl⟩

/-- C6 (amended): in the second/third variants the cutout runs as a
detached continuation, and there a cutout failure is soft exactly as
claimed — with a single selected model whose shot, description and video
submission fulfil but whose cutout call rejects, the run proceeds: the
pipeline never enters the `error` state because of it (it ends in
`loading-video` with no error message), the job's image is kept, its
operation handle is set, and only `cutoutImage` stays unset; in the first
variant the same failure aborts the run (see the counterexample). -/
theorem cutout_failure_soft_detached (sel : AppV3.Selections) (g : GenerationState)
    (pe : Option String) (pr : Option (List AppV3.GenResult)) (pv : Option String)
    (shoot : Item → Except String String)
    (cutout describe : String → Except String String)
    (startVideo : String → String → Except String VideoOp)
    (m : Item) (img e d : String) (op : VideoOp)
    (hm : sel.models = [m])
    (hg : AppV3.isGenerateDisabled sel g = false)
    (hs : shoot m = Except.ok img)
    (hc : cutout img = Except.error e)
    (hdd : describe img = Except.ok d)
    (hv : startVideo img d = Except.ok op) :
    AppV3.handleGenerate sel g pe pr pv shoot cutout describe startVideo =
      { generationState := GenerationState.loadingVideo, generationError := none,
        generatedResult := some [{ model := m, image := img, cutoutImage := none,
                                   video := none, videoOperation := some op }],
        videoDescription := some d,
        calls := [Call.shoot, Call.cutout, Call.describe, Call.startVideo] } := by
  have hprod : sel.products.isEmpty = false := by
    cases hpe : sel.products.isEmpty with
    | false => rfl
    | true => rw [AppV3.isGenerateDisabled] at hg; simp [hpe] at hg
  have hpose : sel.pose.isNone = false := by
    cases hpe : sel.pose.isNone with
    | false => rfl
    | true => rw [AppV3.isGenerateDisabled] at hg; simp [hpe] at hg
  simp [AppV3.handleGenerate, hg, hprod, hpose, hm, AppV3.allShoot,
    AppV3.freshResult, hs, hc, hdd, hv]

/-- Witness for `cutout_failure_soft_detached`: the concrete single-model
run whose cutout call rejects. -/
theorem cutout_failure_soft_detached_witness :
    AppV3.handleGenerate
        { products := [productJacket], models := [modelAva],
          scene := some sceneMountain, color := none, accessories := [],
          pose := some poseStanding }
        GenerationState.idle none none none
        (fun _ => Except.ok "shot.png") (fun _ => Except.error "Cutout failed")
        (fun _ => Except.ok "a walking model") (fun _ _ => Except.ok pendingOp) =
      { generationState := GenerationState.loadingVideo, generationError := none,
        generatedResult := some [{ model := modelAva, image := "shot.png",
                                   cutoutImage := none, video := none,
                                   videoOperation := some pendingOp }],
        videoDescription := some "a walking model",
        calls := [Call.shoot, Call.cutout, Call.describe, Call.startVideo] } := by
  exact cutout_failure_soft_detached
    { products := [productJacket], models := [modelAva],
      scene := some sceneMountain, color := none, accessories := [],
      pose := some poseStanding }
    GenerationState.idle none none none
    (fun _ => Except.ok "shot.png") (fun _ => Except.error "Cutout failed")
    (fun _ => Except.ok "a walking model") (fun _ _ => Except.ok pendingOp)
    modelAva "shot.png" "Cutout failed" "a walking model" pendingOp
    rfl rfl rfl rfl rfl rfl

/-- C7: poll idempotence and clean stop — in the first variant, whenever the
tracked operation handle is absent or already `done`, a `pollVideo` tick
issues no backend poll call, leaves state, result and collections exactly
as they were, and clears the interval; in the second/third variants, a tick
whose head job holds no handle or an already-`done` handle likewise issues
no call, changes nothing, and schedules no further tick. -/
theorem poll_resolved_handle_noop :
    (∀ (key : String) (st : GenerationState) (res : Option AppV1.GeneratedResult)
        (cols : List AppV1.Collection) (pollOp : Except String VideoOp),
      AppV1.videoHandleResolved res = true →
      AppV1.pollVideo key st res cols pollOp =
        { generationState := st, generatedResult := res, collections := cols,
          cleared := true, calls := [] }) ∧
    (∀ (key : String) (g : GenerationState) (err : Option String)
        (r0 : AppV3.GenResult) (rest : List AppV3.GenResult)
        (pollOp : Except String VideoOp),
      (r0.videoOperation = none ∨ ∃ op, r0.videoOperation = some op ∧ op.done = true) →
      AppV3.pollTick key g err (some (r0 :: rest)) pollOp =
        { generationState := g, generationError := err,
          generatedResult := some (r0 :: rest), scheduled := false, calls := [] }) := by
  constructor
  · intro key st res cols pollOp h
    cases res with
    | none => simp [AppV1.pollVideo]
    | some r =>
      cases hv : r.videoOperation with
      | none => simp [AppV1.pollVideo, hv]
      | some op =>
        have hdone : op.done = true := by
          simpa [AppV1.videoHandleResolved, hv] using h
        simp [AppV1.pollVideo, hv, hdone]
  · intro key g err r0 rest pollOp h
    rcases h with h | ⟨op, hop, hdone⟩
    · cases g <;> simp [AppV3.pollTick, h]
    · cases g <;> simp [AppV3.pollTick, hop, hdone]

/-- Witness for `poll_resolved_handle_noop`: a first-variant result whose
operation is already `done`, and a second-variant head job with no handle. -/
theorem poll_resolved_handle_noop_witness :
    AppV1.pollVideo "k" GenerationState.success
        (some { AppV1.emptyResult with videoOperation := some doneOpWithUri })
        [] (Except.ok doneOpWithUri) =
      { generationState := GenerationState.success,
        generatedResult :=
          some { AppV1.emptyResult with videoOperation := some doneOpWithUri },
        collections := [], cleared := true, calls := [] } ∧
    AppV3.pollTick "k" GenerationState.loadingVideo none
        (some [{ jobAvaPending with videoOperation := none }])
        (Except.ok doneOpWithUri) =
      { generationState := GenerationState.loadingVideo, generationError := none,
        generatedResult := some [{ jobAvaPending with videoOperation := none }],
        scheduled := false, calls := [] } := by
  constructor
  · exact poll_resolved_handle_noop.1 "k" GenerationState.success
      (some { AppV1.emptyResult with videoOperation := some doneOpWithUri })
      [] (Except.ok doneOpWithUri) rfl
  · exact poll_resolved_handle_noop.2 "k" GenerationState.loadingVideo none
      { jobAvaPending with videoOperation := none } [] (Except.ok doneOpWithUri)
      (Or.inl rfl)

namespace AppV3

/-- `applySuggestion` never sets a solid color: after its internal reset,
only products, model, scene and accessories are written. -/
theorem applySuggestion_color (s : AppState) (ps : List Item) (m : Option Item)
    (sc : Option Item) (accs : List Item) :
    (applySuggestion s ps m sc accs).sel.color = none := by
  cases m <;> cases sc <;> cases hps : ps.isEmpty <;>
    simp [applySuggestion, resetSelections, hps]

/-- `applySuggestion` never touches the lookbook. -/
theorem applySuggestion_lookbook (s : AppState) (ps : List Item) (m : Option Item)
    (sc : Option Item) (accs : List Item) :
    (applySuggestion s ps m sc accs).lookbook = s.lookbook := by
  cases m <;> cases sc <;> cases hps : ps.isEmpty <;>
    simp [applySuggestion, resetSelections, hps]

/-- Every app event preserves the mutual-exclusion invariant. -/
theorem step_preserves_inv (s t : AppState) (hst : Step s t) (h : LookInv s) :
    LookInv t := by
  obtain ⟨h1, h2⟩ := h
  cases hst with
  | toggleProduct p => exact ⟨h1, h2⟩
  | toggleModel m => exact ⟨h1, h2⟩
  | toggleAccessory a => exact ⟨h1, h2⟩
  | selectScene sc => exact ⟨Or.inr rfl, h2⟩
  | colorChange c => exact ⟨Or.inl rfl, h2⟩
  | choosePose p => exact ⟨h1, h2⟩
  | reset => exact ⟨Or.inl rfl, h2⟩
  | save id ts =>
    cases hr : s.generatedResult with
    | none =>
      constructor
      · simpa [saveToLookbook, hr] using h1
      · intro e he
        simp only [saveToLookbook, hr] at he
        exact h2 e he
    | some rs =>
      cases hc : (s.sel.products.isEmpty || s.sel.models.isEmpty || s.sel.pose.isNone) with
      | true =>
        constructor
        · simpa [saveToLookbook, hr, hc] using h1
        · intro e he
          simp only [saveToLookbook, hr, hc, if_true] at he
          exact h2 e he
      | false =>
        constructor
        · simpa [saveToLookbook, hr, hc] using h1
        · intro e he
          simp only [saveToLookbook, hr, hc, if_false] at he
          rcases List.mem_cons.mp he with he | he
          · subst he; exact h1
          · exact h2 e he
  | load e he => exact ⟨h2 e he, h2⟩
  | suggest ps m sc accs =>
    constructor
    · exact Or.inr (applySuggestion_color s ps m sc accs)
    · intro e he
      rw [applySuggestion_lookbook s ps m sc accs] at he
      exact h2 e he
  | generate shoot cutout describe startVideo => exact ⟨h1, h2⟩
  | pollEvent key pollOp => exact ⟨h1, h2⟩

end AppV3

/-- C10: scene and solid-color backgrounds are mutually exclusive in every
reachable state of the second/third variants — selecting a scene clears the
color, choosing a color clears the scene, reset clears both, and every
other operation (toggles, pose, save, load, suggestion replay, generation,
poll ticks) preserves the invariant, so at most one of the two is ever
non-null. -/
theorem scene_color_mutual_exclusion (s : AppV3.AppState) (h : AppV3.Reachable s) :
    s.sel.scene = none ∨ s.sel.color = none := by
  have inv : AppV3.LookInv s := by
    induction h with
    | init =>
      constructor
      · exact Or.inl rfl
      · intro e he; simp [AppV3.initialState] at he
    | step s t hs hst ih => exact AppV3.step_preserves_inv s t hst ih
  exact inv.1

/-- Witness for `scene_color_mutual_exclusion`: the state reached by
selecting the mountain scene and then choosing the color crimson. -/
theorem scene_color_mutual_exclusion_witness :
    (AppV3.handleColorChange
        (AppV3.handleSelectScene AppV3.initialState sceneMountain) "crimson").sel.scene =
      none ∨
    (AppV3.handleColorChange
        (AppV3.handleSelectScene AppV3.initialState sceneMountain) "crimson").sel.color =
      none :=
  scene_color_mutual_exclusion _
    (AppV3.Reachable.step _ _
      (AppV3.Reachable.step _ _ AppV3.Reachable.init (AppV3.Step.selectScene _ _))
      (AppV3.Step.colorChange _ _))

/-- C8 counterexample: in the first variant, lookbook entries are neither
created only by a user save nor immutable.  With the automatically created
entry `savedEntry` at the head of `collections` and its operation pending,
one `pollVideo` tick whose poll resolves `done` with a URI rewrites that
entry in place — its `result` gains the video URL and the refreshed
operation — so a subsequent pipeline event changed a stored entry, which
the claim forbids. -/
theorem lookbook_entry_mutated_by_poll_cex :
    (AppV1.pollVideo "k" GenerationState.loadingVideo (some savedEntry.result)
        [savedEntry] (Except.ok doneOpWithUri)).collections =
      [savedEntryAfterPoll] ∧
    savedEntryAfterPoll ≠ savedEntry := by
  constructor
  · rfl
  · decide

/-- C8 (amended): in the second/third variants the claim holds — the
lookbook changes under no app event except the explicit save action, which
prepends one immutable snapshot of the current result and selections and
leaves every existing entry untouched (the tail is exactly the previous
lookbook); in the first variant an entry is appended automatically during
generation and later patched by the poll loop (see the counterexample). -/
theorem lookbook_save_only_append (s t : AppV3.AppState) (hst : AppV3.Step s t) :
    t.lookbook = s.lookbook ∨
      ∃ id ts rs, s.generatedResult = some rs ∧
        t.lookbook = ({ id := id, timestamp := ts, result := rs,
                        selections := s.sel } : AppV3.Collection) :: s.lookbook := by
  cases hst with
  | toggleProduct p => exact Or.inl rfl
  | toggleModel m => exact Or.inl rfl
  | toggleAccessory a => exact Or.inl rfl
  | selectScene sc => exact Or.inl rfl
  | colorChange c => exact Or.inl rfl
  | choosePose p => exact Or.inl rfl
  | reset => exact Or.inl rfl
  | load e he => exact Or.inl rfl
  | suggest ps m sc accs => exact Or.inl (AppV3.applySuggestion_lookbook s ps m sc accs)
  | generate shoot cutout describe startVideo => exact Or.inl rfl
  | pollEvent key pollOp => exact Or.inl rfl
  | save id ts =>
    cases hr : s.generatedResult with
    | none => exact Or.inl (by simp [AppV3.saveToLookbook, hr])
    | some rs =>
      cases hc : (s.sel.products.isEmpty || s.sel.models.isEmpty || s.sel.pose.isNone) with
      | true => exact Or.inl (by simp [AppV3.saveToLookbook, hr, hc])
      | false =>
        exact Or.inr ⟨id, ts, rs, rfl, by simp [AppV3.saveToLookbook, hr, hc]⟩

/-- Witness for `lookbook_save_only_append`: the concrete save step from a
state holding a completed run. -/
theorem lookbook_save_only_append_witness :
    (AppV3.saveToLookbook readyState 5 9).lookbook = readyState.lookbook ∨
      ∃ id ts rs, readyState.generatedResult = some rs ∧
        (AppV3.saveToLookbook readyState 5 9).lookbook =
          ({ id := id, timestamp := ts, result := rs,
             selections := readyState.sel } : AppV3.Collection) :: readyState.lookbook :=
  lookbook_save_only_append readyState (AppV3.saveToLookbook readyState 5 9)
    (AppV3.Step.save readyState 5 9)

/-- C9 counterexample: deleting a selected item in the second/third
variants does not remove it from the active selection — `createDeleteHandler`
only filters the catalog, so after deleting the selected jacket the catalog
is empty while the jacket is still selected: the selection now contains an
item no longer present in the catalog, which the claim forbids. -/
theorem delete_leaves_stale_selection_cex :
    AppV3.deleteItem { catalog := [productJacket], selection := [productJacket] }
        productJacket.id =
      { catalog := [], selection := [productJacket] } ∧
    productJacket ∈
      (AppV3.deleteItem { catalog := [productJacket], selection := [productJacket] }
        productJacket.id).selection := by
  constructor
  · rfl
  · decide

/-- C9 (amended): the claimed cleanup holds in the first variant, whose
`handleDeleteItem` receives the selection — after a delete, no item with
the deleted id remains in the catalog and the single selection never still
carries the deleted id; in the second/third variants the delete handler
touches only the catalog, leaving a deleted item selected (see the
counterexample). -/
theorem delete_clears_selection_v1 (catalog : List Item) (sel : Option Item)
    (tid : Nat) :
    ((AppV1.handleDeleteItem catalog sel tid).1.all (fun it => it.id != tid)) = true ∧
    ((AppV1.handleDeleteItem catalog sel tid).2.all (fun it => it.id != tid)) = true := by
  constructor
  · simp only [AppV1.handleDeleteItem, List.all_eq_true]
    intro it hit
    rw [List.mem_filter] at hit
    simpa using hit.2
  · cases sel with
    | none => simp [AppV1.handleDeleteItem]
    | some x =>
      by_cases hx : x.id = tid
      · simp [AppV1.handleDeleteItem, hx]
      · simp [AppV1.handleDeleteItem, hx]
